import Mathlib

/-!
Verification of `jules-scratch/verification/verify_toc_tracking.py`.

The script is a straight-line browser-automation probe: launch a browser,
open a page, run nine interaction steps inside a `try` block, print and
attempt a diagnostic screenshot in a single `except Exception` handler,
and close the browser in a `finally` block.

We embed the script as:
* `Event` — the atomic browser operations the script performs, carrying the
  literal arguments from the source (selectors, timeouts in milliseconds,
  screenshot paths and the full-page flag);
* `tryEvents` — the fixed sequence of operations inside the `try` block,
  in source order;
* `run` — the exception semantics of the `try`/`except`/`finally` shape,
  parameterised by an environment `fails : Event → Bool` saying which
  operations raise when executed.  `runTry` executes the `try` block,
  stopping at the first raising operation and recording the screenshot
  files written; `run` then applies the handler (print, attempt the error
  screenshot) and the `finally` (close the browser) exactly as the source
  does: an exception raised by the handler's own screenshot escapes
  (Python semantics of a raise inside an `except` block), but the
  `finally` still closes the browser.
-/

/-- The atomic browser operations performed by the script.  Arguments are
the literal values from the source: target selector / title / URL,
timeout in milliseconds, hover coordinates, screenshot path and
full-page flag. -/
inductive Event where
  | launchBrowser : Event
  | newPage : Event
  | goto : String → Nat → Event
  | waitVisible : String → Nat → Event
  | click : String → Event
  | hover : String → Nat → Nat → Event
  | evalScroll : String → Event
  | waitTimeout : Nat → Event
  | screenshot : String → Bool → Event
  | closeBrowser : Event
deriving DecidableEq, Repr

/-- `http://localhost:3000/library` (line 11 of the source). -/
def libraryUrl : String := "http://localhost:3000/library"

/-- The book-link selector `a[href*='/reader?id=']` (line 16). -/
def bookLinkSelector : String := "a[href*=\x27/reader?id=\x27]"

/-- The reader-container selector `.epub-container` (line 21). -/
def readerContainerSelector : String := ".epub-container"

/-- The accessible title `Table of Contents` used by `get_by_title` (line 28). -/
def tocButtonTitle : String := "Table of Contents"

/-- The contents-panel selector `nav` (line 34). -/
def tocPanelSelector : String := "nav"

/-- The hover target `body` (line 25). -/
def bodySelector : String := "body"

/-- The success screenshot path (line 45). -/
def successShotPath : String := "jules-scratch/verification/verification.png"

/-- The failure screenshot path (line 52). -/
def errorShotPath : String := "jules-scratch/verification/error.png"

/-- The navigation operation of line 11: `page.goto(..., timeout=60000)`. -/
def gotoEvent : Event := Event.goto libraryUrl 60000

/-- The success screenshot of line 45.  `page.screenshot` is called without
the `full_page` option, whose Playwright default is `False` (viewport
screenshot), hence the flag `false`. -/
def successShotEvent : Event := Event.screenshot successShotPath false

/-- The diagnostic screenshot of line 52 inside the `except` handler; again
no `full_page` option, so the flag is `false`. -/
def errorShotEvent : Event := Event.screenshot errorShotPath false

/-- The operations inside the `try` block (lines 9–47), in source order:
goto; wait for the book link then click it; wait for the reader
container; hover over `body` at (1, 1); wait for the TOC button then
click it; wait for the `nav` panel; evaluate the scroll on the reader
container; wait 2000 ms; take the success screenshot. -/
def tryEvents : List Event :=
  [gotoEvent,
   Event.waitVisible bookLinkSelector 30000,
   Event.click bookLinkSelector,
   Event.waitVisible readerContainerSelector 30000,
   Event.hover bodySelector 1 1,
   Event.waitVisible tocButtonTitle 10000,
   Event.click tocButtonTitle,
   Event.waitVisible tocPanelSelector 10000,
   Event.evalScroll readerContainerSelector,
   Event.waitTimeout 2000,
   successShotEvent]

/-- Execute a list of operations in order under failure environment
`fails`, accumulating the screenshot files written; stop at the first
operation that raises and return it (`some e`), or `none` if all
succeed. -/
def runTry (fails : Event → Bool) : List Event → List String → Option Event × List String
  | [], files => (none, files)
  | e :: rest, files =>
      if fails e then (some e, files)
      else
        match e with
        | Event.screenshot p _ => runTry fails rest (files ++ [p])
        | _ => runTry fails rest files

/-- The operations actually executed (a raising operation is executed and
raises; nothing after it runs). -/
def executedEvents (fails : Event → Bool) : List Event → List Event
  | [] => []
  | e :: rest => if fails e then [e] else e :: executedEvents fails rest

/-- Observable outcome of one run of `main`:
whether the handler printed the error line (line 50), whether the success
line was printed (line 47), whether the handler attempted the diagnostic
screenshot (line 52), which screenshot files were written, whether
`browser.close()` ran (line 55), and whether an exception escaped `main`
uncaught. -/
structure RunResult where
  printedError : Bool
  printedSuccess : Bool
  errorShotAttempted : Bool
  filesWritten : List String
  browserClosed : Bool
  uncaught : Bool
deriving DecidableEq, Repr

/-- One run of `main` (after browser launch and page creation): execute the
`try` block; on an exception, print the message and attempt the error
screenshot — if that screenshot itself raises, the new exception escapes
the handler; the `finally` closes the browser on every path. -/
def run (fails : Event → Bool) : RunResult :=
  match runTry fails tryEvents [] with
  | (none, files) => ⟨false, true, false, files, true, false⟩
  | (some _, files) =>
      if fails errorShotEvent then ⟨true, false, true, files, true, true⟩
      else ⟨true, false, true, files ++ [errorShotPath], true, false⟩

/-- The exception (if any) raised inside the `try` block. -/
def firstFailure (fails : Event → Bool) : Option Event :=
  (runTry fails tryEvents []).1

/-- The timeouts of the `goto` navigations in a trace, in order. -/
def navigationTimeouts (tr : List Event) : List Nat :=
  tr.filterMap fun e =>
    match e with
    | Event.goto _ t => some t
    | _ => none

/-- The timeouts of the visibility waits in a trace, in order. -/
def visibilityTimeouts (tr : List Event) : List Nat :=
  tr.filterMap fun e =>
    match e with
    | Event.waitVisible _ t => some t
    | _ => none

/-- The fixed delays (`wait_for_timeout`) in a trace, in order. -/
def settleDelays (tr : List Event) : List Nat :=
  tr.filterMap fun e =>
    match e with
    | Event.waitTimeout t => some t
    | _ => none

/-- The screenshots in a trace: path and full-page flag, in order. -/
def screenshotSpecs (tr : List Event) : List (String × Bool) :=
  tr.filterMap fun e =>
    match e with
    | Event.screenshot p fp => some (p, fp)
    | _ => none

/-- Exactly one of the two screenshot files appears among the files a run
wrote. -/
def exactlyOneShot (r : RunResult) : Prop :=
  (successShotPath ∈ r.filesWritten ∧ errorShotPath ∉ r.filesWritten) ∨
  (errorShotPath ∈ r.filesWritten ∧ successShotPath ∉ r.filesWritten)

instance (r : RunResult) : Decidable (exactlyOneShot r) := by
  unfold exactlyOneShot
  infer_instance

/-- The screenshot paths occurring in a trace, in order. -/
def shotPaths (tr : List Event) : List String :=
  (screenshotSpecs tr).map Prod.fst

/-- The `try` block without its final operation: the success screenshot of
line 45 is the last operation of the block. -/
def tryPrefixEvents : List Event :=
  [gotoEvent,
   Event.waitVisible bookLinkSelector 30000,
   Event.click bookLinkSelector,
   Event.waitVisible readerContainerSelector 30000,
   Event.hover bodySelector 1 1,
   Event.waitVisible tocButtonTitle 10000,
   Event.click tocButtonTitle,
   Event.waitVisible tocPanelSelector 10000,
   Event.evalScroll readerContainerSelector,
   Event.waitTimeout 2000]

/-- Strict per-target discipline: scanning the trace left to right while
collecting the targets of visibility waits, every interaction (click,
hover, scroll evaluation) must target an element whose visibility was
awaited earlier.  `seen` is the set of targets waited on so far. -/
def waitedInteractions : List String → List Event → Bool
  | _, [] => true
  | seen, Event.waitVisible t _ :: rest => waitedInteractions (t :: seen) rest
  | seen, Event.click t :: rest => seen.contains t && waitedInteractions seen rest
  | seen, Event.hover t _ _ :: rest => seen.contains t && waitedInteractions seen rest
  | seen, Event.evalScroll t :: rest => seen.contains t && waitedInteractions seen rest
  | seen, _ :: rest => waitedInteractions seen rest

/-- Loose discipline: clicks and scroll evaluations must target an element
whose visibility was awaited earlier; a hover only requires that some
visibility wait has already completed. -/
def waitedInteractionsLoose : List String → List Event → Bool
  | _, [] => true
  | seen, Event.waitVisible t _ :: rest => waitedInteractionsLoose (t :: seen) rest
  | seen, Event.click t :: rest => seen.contains t && waitedInteractionsLoose seen rest
  | seen, Event.hover _ _ _ :: rest => !seen.isEmpty && waitedInteractionsLoose seen rest
  | seen, Event.evalScroll t :: rest => seen.contains t && waitedInteractionsLoose seen rest
  | seen, _ :: rest => waitedInteractionsLoose seen rest

/-- The nine steps of the run, as the spec numbers them. -/
inductive StepId where
  | navigateLibrary : StepId
  | openBook : StepId
  | awaitReader : StepId
  | hoverToolbar : StepId
  | openToc : StepId
  | awaitTocPanel : StepId
  | scrollReader : StepId
  | settle : StepId
  | captureShot : StepId
deriving DecidableEq, Repr

/-- The step an operation is the principal action of (the visibility wait
for the book link belongs to step 2 and the one for the TOC button to
step 5, so they map to `none`: the click is each step's principal
action). -/
def stepOf : Event → Option StepId := fun e =>
  match e with
  | Event.goto _ _ => some StepId.navigateLibrary
  | Event.click t =>
      if t = bookLinkSelector then some StepId.openBook
      else if t = tocButtonTitle then some StepId.openToc
      else none
  | Event.waitVisible t _ =>
      if t = readerContainerSelector then some StepId.awaitReader
      else if t = tocPanelSelector then some StepId.awaitTocPanel
      else none
  | Event.hover _ _ _ => some StepId.hoverToolbar
  | Event.evalScroll _ => some StepId.scrollReader
  | Event.waitTimeout _ => some StepId.settle
  | Event.screenshot _ _ => some StepId.captureShot
  | _ => none

/-- A scrollable element as the evaluated JavaScript sees it: its scroll
height and its current vertical scroll position. -/
structure Pane where
  scrollHeight : ℚ
  scrollTop : ℚ
deriving DecidableEq, Repr

/-- The JavaScript of line 39: `element.scrollTo(0, element.scrollHeight / 2)`
sets the vertical scroll position to half the scroll height. -/
def scrollToMiddle (el : Pane) : Pane := ⟨el.scrollHeight, el.scrollHeight / 2⟩

/-- `locator.evaluate`: raises (`none`) when the element is absent,
otherwise applies the script to the element. -/
def evaluateOn (el : Option Pane) (f : Pane → Pane) : Option Pane := el.map f

/-- Does an operation launch a browser? -/
def isLaunch : Event → Bool := fun e =>
  match e with
  | Event.launchBrowser => true
  | _ => false

/-- Does an operation open a page? -/
def isNewPage : Event → Bool := fun e =>
  match e with
  | Event.newPage => true
  | _ => false

/-- The operations the handler executes on a failing run: the diagnostic
screenshot attempt (the print is not a browser operation). -/
def handlerEvents (fails : Event → Bool) : List Event :=
  match firstFailure fails with
  | none => []
  | some _ => [errorShotEvent]

/-- Every browser operation one run performs, in order: launch (line 6),
new page (line 7), the executed part of the `try` block, the handler's
screenshot attempt if the run failed, and the `finally` close (line 55). -/
def fullTrace (fails : Event → Bool) : List Event :=
  Event.launchBrowser :: Event.newPage ::
    (executedEvents fails tryEvents ++ handlerEvents fails ++ [Event.closeBrowser])

/-- Environment in which no operation raises. -/
def noFailure : Event → Bool := fun _ => false

/-- Environment in which the initial navigation raises. -/
def failAtGoto : Event → Bool := fun e => decide (e = gotoEvent)

/-- Environment in which the initial navigation raises and the handler's
diagnostic screenshot also raises. -/
def failGotoAndHandler : Event → Bool :=
  fun e => decide (e = gotoEvent) || decide (e = errorShotEvent)

/-- Environment in which the wait for the reader container raises. -/
def failAtReaderWait : Event → Bool :=
  fun e => decide (e = Event.waitVisible readerContainerSelector 30000)

/-! ### Helper lemmas about the execution model -/

lemma runTry_append (fails : Event → Bool) :
    ∀ (l₁ l₂ : List Event) (files : List String),
      runTry fails (l₁ ++ l₂) files =
        match runTry fails l₁ files with
        | (some e, fs) => (some e, fs)
        | (none, fs) => runTry fails l₂ fs := by
  intro l₁
  induction l₁ with
  | nil => intro l₂ files; simp [runTry]
  | cons e rest ih =>
    intro l₂ files
    by_cases h : fails e
    · simp [runTry, h]
    · cases e with
      | screenshot p fp => simp [runTry, h, ih]
      | _ => simp [runTry, h, ih]

lemma runTry_files_from_shots (fails : Event → Bool) :
    ∀ (l : List Event) (files : List String) (p : String),
      p ∈ (runTry fails l files).2 →
      p ∈ files ∨ ∃ fp, Event.screenshot p fp ∈ l := by
  intro l
  induction l with
  | nil => intro files p hp; exact Or.inl (by simpa [runTry] using hp)
  | cons e rest ih =>
    intro files p hp
    by_cases h : fails e
    · exact Or.inl (by simpa [runTry, h] using hp)
    · cases e with
      | screenshot q fp =>
        rcases ih (files ++ [q]) p (by simpa [runTry, h] using hp) with hin | ⟨fp2, hm⟩
        · rcases List.mem_append.1 hin with hin | hin
          · exact Or.inl hin
          · refine Or.inr ⟨fp, ?_⟩
            have hq : p = q := by simpa using hin
            subst hq
            exact List.mem_cons_self _ _
        · exact Or.inr ⟨fp2, List.mem_cons_of_mem _ hm⟩
      | goto u t =>
        rcases ih files p (by simpa [runTry, h] using hp) with hin | ⟨fp2, hm⟩
        · exact Or.inl hin
        · exact Or.inr ⟨fp2, List.mem_cons_of_mem _ hm⟩
      | waitVisible t ms =>
        rcases ih files p (by simpa [runTry, h] using hp) with hin | ⟨fp2, hm⟩
        · exact Or.inl hin
        · exact Or.inr ⟨fp2, List.mem_cons_of_mem _ hm⟩
      | click t =>
        rcases ih files p (by simpa [runTry, h] using hp) with hin | ⟨fp2, hm⟩
        · exact Or.inl hin
        · exact Or.inr ⟨fp2, List.mem_cons_of_mem _ hm⟩
      | hover t x y =>
        rcases ih files p (by simpa [runTry, h] using hp) with hin | ⟨fp2, hm⟩
        · exact Or.inl hin
        · exact Or.inr ⟨fp2, List.mem_cons_of_mem _ hm⟩
      | evalScroll t =>
        rcases ih files p (by simpa [runTry, h] using hp) with hin | ⟨fp2, hm⟩
        · exact Or.inl hin
        · exact Or.inr ⟨fp2, List.mem_cons_of_mem _ hm⟩
      | waitTimeout ms =>
        rcases ih files p (by simpa [runTry, h] using hp) with hin | ⟨fp2, hm⟩
        · exact Or.inl hin
        · exact Or.inr ⟨fp2, List.mem_cons_of_mem _ hm⟩
      | launchBrowser =>
        rcases ih files p (by simpa [runTry, h] using hp) with hin | ⟨fp2, hm⟩
        · exact Or.inl hin
        · exact Or.inr ⟨fp2, List.mem_cons_of_mem _ hm⟩
      | newPage =>
        rcases ih files p (by simpa [runTry, h] using hp) with hin | ⟨fp2, hm⟩
        · exact Or.inl hin
        · exact Or.inr ⟨fp2, List.mem_cons_of_mem _ hm⟩
      | closeBrowser =>
        rcases ih files p (by simpa [runTry, h] using hp) with hin | ⟨fp2, hm⟩
        · exact Or.inl hin
        · exact Or.inr ⟨fp2, List.mem_cons_of_mem _ hm⟩

lemma runTry_none_files (fails : Event → Bool) :
    ∀ (l : List Event) (files : List String),
      (runTry fails l files).1 = none →
      (runTry fails l files).2 = files ++ shotPaths l := by
  intro l
  induction l with
  | nil => intro files _; simp [runTry, shotPaths, screenshotSpecs]
  | cons e rest ih =>
    intro files h
    by_cases hf : fails e
    · simp [runTry, hf] at h
    · cases e with
      | screenshot p fp =>
        have h2 : (runTry fails rest (files ++ [p])).1 = none := by
          simpa [runTry, hf] using h
        have := ih (files ++ [p]) h2
        simp [runTry, hf, this, shotPaths, screenshotSpecs]
      | goto u t =>
        have h2 : (runTry fails rest files).1 = none := by simpa [runTry, hf] using h
        have := ih files h2
        simp [runTry, hf, this, shotPaths, screenshotSpecs]
      | waitVisible t ms =>
        have h2 : (runTry fails rest files).1 = none := by simpa [runTry, hf] using h
        have := ih files h2
        simp [runTry, hf, this, shotPaths, screenshotSpecs]
      | click t =>
        have h2 : (runTry fails rest files).1 = none := by simpa [runTry, hf] using h
        have := ih files h2
        simp [runTry, hf, this, shotPaths, screenshotSpecs]
      | hover t x y =>
        have h2 : (runTry fails rest files).1 = none := by simpa [runTry, hf] using h
        have := ih files h2
        simp [runTry, hf, this, shotPaths, screenshotSpecs]
      | evalScroll t =>
        have h2 : (runTry fails rest files).1 = none := by simpa [runTry, hf] using h
        have := ih files h2
        simp [runTry, hf, this, shotPaths, screenshotSpecs]
      | waitTimeout ms =>
        have h2 : (runTry fails rest files).1 = none := by simpa [runTry, hf] using h
        have := ih files h2
        simp [runTry, hf, this, shotPaths, screenshotSpecs]
      | launchBrowser =>
        have h2 : (runTry fails rest files).1 = none := by simpa [runTry, hf] using h
        have := ih files h2
        simp [runTry, hf, this, shotPaths, screenshotSpecs]
      | newPage =>
        have h2 : (runTry fails rest files).1 = none := by simpa [runTry, hf] using h
        have := ih files h2
        simp [runTry, hf, this, shotPaths, screenshotSpecs]
      | closeBrowser =>
        have h2 : (runTry fails rest files).1 = none := by simpa [runTry, hf] using h
        have := ih files h2
        simp [runTry, hf, this, shotPaths, screenshotSpecs]

lemma mem_of_mem_executedEvents (fails : Event → Bool) :
    ∀ {l : List Event} {a : Event}, a ∈ executedEvents fails l → a ∈ l := by
  intro l
  induction l with
  | nil => intro a ha; simp [executedEvents] at ha
  | cons e rest ih =>
    intro a ha
    by_cases h : fails e
    · simp [executedEvents, h] at ha
      simp [ha]
    · simp only [executedEvents, h, if_neg, Bool.false_eq_true, ite_false] at ha
      rcases List.mem_cons.1 ha with h1 | h1
      · simp [h1]
      · exact List.mem_cons_of_mem _ (ih h1)

lemma executedEvents_nodup (fails : Event → Bool) :
    ∀ {l : List Event}, l.Nodup → (executedEvents fails l).Nodup := by
  intro l
  induction l with
  | nil => intro _; simp [executedEvents]
  | cons e rest ih =>
    intro hl
    rcases List.nodup_cons.1 hl with ⟨hmem, hrest⟩
    by_cases h : fails e
    · simp [executedEvents, h]
    · simp only [executedEvents, h, Bool.false_eq_true, ite_false]
      exact List.nodup_cons.2 ⟨fun hc => hmem (mem_of_mem_executedEvents fails hc), ih hrest⟩

lemma countP_executedEvents_le (fails : Event → Bool) (p : Event → Bool) :
    ∀ l : List Event, (executedEvents fails l).countP p ≤ l.countP p := by
  intro l
  induction l with
  | nil => simp [executedEvents]
  | cons e rest ih =>
    by_cases h : fails e
    · simp only [executedEvents, h, ite_true, List.countP_cons]
      have : List.countP p [e] = List.countP p [] + if p e = true then 1 else 0 := by
        simp [List.countP_cons]
      simp only [List.countP_nil] at this ⊢
      omega
    · simp only [executedEvents, h, Bool.false_eq_true, ite_false, List.countP_cons]
      omega

lemma run_of_failure (fails : Event → Bool) (e : Event)
    (h : firstFailure fails = some e) :
    run fails =
      if fails errorShotEvent then
        ⟨true, false, true, (runTry fails tryEvents []).2, true, true⟩
      else
        ⟨true, false, true, (runTry fails tryEvents []).2 ++ [errorShotPath], true, false⟩ := by
  unfold run
  unfold firstFailure at h
  rcases hr : runTry fails tryEvents [] with ⟨exn, files⟩
  rw [hr] at h
  simp only at h
  subst h
  simp [hr]

lemma run_of_success (fails : Event → Bool) (h : firstFailure fails = none) :
    run fails = ⟨false, true, false, shotPaths tryEvents, true, false⟩ := by
  unfold run
  unfold firstFailure at h
  have hfiles := runTry_none_files fails tryEvents [] h
  rcases hr : runTry fails tryEvents [] with ⟨exn, files⟩
  rw [hr] at h hfiles
  simp only at h hfiles
  subst h
  simp at hfiles
  simp [hfiles]

lemma run_browserClosed (fails : Event → Bool) : (run fails).browserClosed = true := by
  unfold run
  rcases runTry fails tryEvents [] with ⟨exn, files⟩
  cases exn with
  | none => rfl
  | some e =>
    by_cases h : fails errorShotEvent
    · simp [h]
    · simp [h]

lemma successShot_not_written_on_failure (fails : Event → Bool) (e : Event)
    (h : firstFailure fails = some e) :
    successShotPath ∉ (runTry fails tryEvents []).2 := by
  have hsplit : tryEvents = tryPrefixEvents ++ [successShotEvent] := by decide
  unfold firstFailure at h
  rw [hsplit, runTry_append] at h ⊢
  rcases hp : runTry fails tryPrefixEvents [] with ⟨exn, fs⟩
  rw [hp] at h
  have hnoshot : ¬ ∃ fp, Event.screenshot successShotPath fp ∈ tryPrefixEvents := by
    rintro ⟨fp, hm⟩
    cases fp <;> revert hm <;> decide
  have hfs : ∀ hmem : successShotPath ∈ fs, False := by
    intro hmem
    have hmem2 : successShotPath ∈ (runTry fails tryPrefixEvents []).2 := by
      rw [hp]; exact hmem
    rcases runTry_files_from_shots fails tryPrefixEvents [] successShotPath hmem2 with
      h1 | h1
    · simp at h1
    · exact hnoshot h1
  cases exn with
  | some e2 =>
    dsimp only at h ⊢
    exact fun hmem => hfs hmem
  | none =>
    dsimp only at h ⊢
    by_cases hs : fails (Event.screenshot successShotPath false) = true
    · have hred : runTry fails [successShotEvent] fs = (some successShotEvent, fs) := by
        simp [runTry, successShotEvent, hs]
      rw [hred]
      exact fun hmem => hfs hmem
    · have hred : runTry fails [successShotEvent] fs = (none, fs ++ [successShotPath]) := by
        simp [runTry, successShotEvent, hs]
      rw [hred] at h
      simp at h

lemma errorShot_not_in_tryFiles (fails : Event → Bool) :
    errorShotPath ∉ (runTry fails tryEvents []).2 := by
  intro hmem
  rcases runTry_files_from_shots fails tryEvents [] errorShotPath hmem with h1 | ⟨fp, h1⟩
  · simp at h1
  · cases fp <;> revert h1 <;> decide

/-! ### Claim theorems -/

/-- Claim C1: any exception raised during steps 1–9 is caught exactly once by
the single top-level handler, which prints the exception message and
attempts a diagnostic screenshot; no category of error is distinguished
(the handler's behaviour is the same fixed shape whatever event failed),
no step is retried (the executed operations are duplicate-free), and no
structured error is propagated (the run yields only the observable
`RunResult`). -/
theorem toplevel_catch_all (fails : Event → Bool) (e : Event)
    (h : firstFailure fails = some e) :
    (run fails).printedError = true ∧
    (run fails).errorShotAttempted = true ∧
    (run fails).printedSuccess = false ∧
    (executedEvents fails tryEvents).Nodup ∧
    run fails = (if fails errorShotEvent then
        ⟨true, false, true, (runTry fails tryEvents []).2, true, true⟩
      else ⟨true, false, true, (runTry fails tryEvents []).2 ++ [errorShotPath], true, false⟩) := by
  have hr := run_of_failure fails e h
  refine ⟨?_, ?_, ?_, executedEvents_nodup fails (by decide), hr⟩
  all_goals rw [hr]
  all_goals split
  all_goals rfl

/-- Witness for C1: a run failing at the initial navigation. -/
theorem toplevel_catch_all_witness :
    (run failAtGoto).printedError = true ∧
    (run failAtGoto).errorShotAttempted = true ∧
    (run failAtGoto).printedSuccess = false ∧
    (executedEvents failAtGoto tryEvents).Nodup ∧
    run failAtGoto = (if failAtGoto errorShotEvent then
        ⟨true, false, true, (runTry failAtGoto tryEvents []).2, true, true⟩
      else ⟨true, false, true, (runTry failAtGoto tryEvents []).2 ++ [errorShotPath], true, false⟩) :=
  toplevel_catch_all failAtGoto gotoEvent (by decide)

/-- Claim C2: the browser acquired at start is closed on every exit path of
the runner — normal completion, handled step failure, or an exception
escaping the handler — via the unconditional `finally` block. -/
theorem browser_always_released (fails : Event → Bool) :
    (run fails).browserClosed = true :=
  run_browserClosed fails

/-- Counterexample for C3: the claimed timeout schedule (30 s for the
library-page navigation as a major transition) is false — the `goto` of
line 11 uses a 60000 ms timeout, not 30000 ms. -/
theorem timeout_schedule_counterexample :
    ¬ (navigationTimeouts tryEvents = [30000] ∧
       visibilityTimeouts tryEvents = [30000, 30000, 10000, 10000] ∧
       settleDelays tryEvents = [2000]) := by decide

/-- Claim C3 (amended): the library-page navigation has a 60-second timeout;
the book-link and reading-pane visibility waits have 30-second timeouts;
the toolbar/panel waits (TOC control, contents landmark) have 10-second
timeouts; the settle delay after scrolling is a fixed 2 seconds. -/
theorem timeout_schedule :
    navigationTimeouts tryEvents = [60000] ∧
    visibilityTimeouts tryEvents = [30000, 30000, 10000, 10000] ∧
    settleDelays tryEvents = [2000] := by decide

/-- Counterexample for C4: the success screenshot is not a full-page
screenshot — `page.screenshot` is called without `full_page=True`, whose
default is a viewport capture. -/
theorem screenshot_fullpage_counterexample :
    screenshotSpecs tryEvents = [(successShotPath, false)] ∧
    (successShotPath, true) ∉ screenshotSpecs tryEvents := by decide

/-- Claim C4 (amended): on a run where all steps succeed, the runner writes
exactly the viewport (not full-page) screenshot
`jules-scratch/verification/verification.png`; on a failed run, when the
handler's diagnostic screenshot itself succeeds, it writes
`jules-scratch/verification/error.png`. -/
theorem screenshot_artifacts (fails : Event → Bool) :
    (firstFailure fails = none → (run fails).filesWritten = [successShotPath]) ∧
    (firstFailure fails ≠ none → fails errorShotEvent = false →
      errorShotPath ∈ (run fails).filesWritten) := by
  constructor
  · intro h
    rw [run_of_success fails h]
    show shotPaths tryEvents = [successShotPath]
    decide
  · intro h hs
    obtain ⟨e, he⟩ := Option.ne_none_iff_exists'.1 h
    rw [run_of_failure fails e he, if_neg (by simp [hs])]
    show errorShotPath ∈ (runTry fails tryEvents []).2 ++ [errorShotPath]
    simp

/-- Witness for C4: a fully successful run, and a run failing at the
reader-container wait whose handler screenshot succeeds. -/
theorem screenshot_artifacts_witness :
    (run noFailure).filesWritten = [successShotPath] ∧
    errorShotPath ∈ (run failAtReaderWait).filesWritten :=
  ⟨(screenshot_artifacts noFailure).1 (by decide),
   (screenshot_artifacts failAtReaderWait).2 (by decide) (by decide)⟩

/-- Counterexample for C5: in a run where the navigation fails and the
handler's diagnostic screenshot also fails, the run is a failing run yet
writes neither of the two screenshot files, so "exactly one of the two
screenshot files is written" is false. -/
theorem exactly_one_artifact_counterexample :
    firstFailure failGotoAndHandler = some gotoEvent ∧
    ¬ exactlyOneShot (run failGotoAndHandler) := by decide

/-- Claim C5 (amended): on a run where some step fails, exactly one of the
two screenshot files is written provided the handler's own diagnostic
screenshot succeeds; the browser is closed in both outcomes
unconditionally. -/
theorem exactly_one_artifact_amended (fails : Event → Bool) (e : Event)
    (h : firstFailure fails = some e) :
    (fails errorShotEvent = false → exactlyOneShot (run fails)) ∧
    (run fails).browserClosed = true := by
  refine ⟨?_, run_browserClosed fails⟩
  intro hs
  rw [run_of_failure fails e h, if_neg (by simp [hs])]
  unfold exactlyOneShot
  refine Or.inr ⟨?_, ?_⟩
  · show errorShotPath ∈ (runTry fails tryEvents []).2 ++ [errorShotPath]
    simp
  · show successShotPath ∉ (runTry fails tryEvents []).2 ++ [errorShotPath]
    intro hmem
    rcases List.mem_append.1 hmem with hm | hm
    · exact successShot_not_written_on_failure fails e h hm
    · have heq : successShotPath = errorShotPath := by simpa using hm
      exact absurd heq (by decide)

/-- Witness for C5: a run failing at the navigation whose handler
screenshot succeeds. -/
theorem exactly_one_artifact_amended_witness :
    exactlyOneShot (run failAtGoto) ∧ (run failAtGoto).browserClosed = true :=
  ⟨(exactly_one_artifact_amended failAtGoto gotoEvent (by decide)).1 (by decide),
   (exactly_one_artifact_amended failAtGoto gotoEvent (by decide)).2⟩

/-- Claim C6: the `try` block is a fixed linear sequence realising the nine
steps exactly once each, in order: navigate to the library page, click
the first `/reader?id=` link, wait for the reading-pane container, hover
near the top of the viewport, click the Table of Contents control, wait
for the contents navigation landmark, scroll the reading pane, wait the
settle delay, take the screenshot.  (The visibility waits for the book
link and the TOC button are the bounded waits inside steps 2 and 5.) -/
theorem nine_step_linear_sequence :
    tryEvents.filterMap stepOf =
      [StepId.navigateLibrary, StepId.openBook, StepId.awaitReader, StepId.hoverToolbar,
       StepId.openToc, StepId.awaitTocPanel, StepId.scrollReader, StepId.settle,
       StepId.captureShot] ∧
    (tryEvents.filterMap stepOf).Nodup := by decide

/-- Claim C7: the scroll evaluation of line 39 sets the pane's vertical
scroll position to half its scroll height (50%), and on a present pane
the evaluation raises no error (`isSome`); the trace performs it on the
reader container. -/
theorem scroll_to_vertical_midpoint (el : Pane) :
    evaluateOn (some el) scrollToMiddle = some ⟨el.scrollHeight, el.scrollHeight / 2⟩ ∧
    (evaluateOn (some el) scrollToMiddle).isSome = true ∧
    2 * (scrollToMiddle el).scrollTop = el.scrollHeight ∧
    Event.evalScroll readerContainerSelector ∈ tryEvents := by
  refine ⟨rfl, rfl, ?_, by decide⟩
  show 2 * (el.scrollHeight / 2) = el.scrollHeight
  ring

/-- Counterexample for C8: it is not true that every interaction is preceded
by an awaited visibility condition for its own target — the hover targets
`body`, whose visibility is never awaited anywhere in the run. -/
theorem interactions_target_waited_counterexample :
    waitedInteractions [] tryEvents = false := by decide

/-- Claim C8 (amended): every click and the scroll evaluation target an
element whose visibility was awaited earlier within an explicit timeout,
and every interaction (including the hover) is preceded by at least one
completed bounded visibility wait; only the hover's own target (`body`)
is never awaited — granting it makes the strict discipline hold. -/
theorem interactions_waited_amended :
    waitedInteractionsLoose [] tryEvents = true ∧
    waitedInteractions [bodySelector] tryEvents = true := by decide

/-- Claim C9: every run launches exactly one browser and opens exactly one
page; no operation on any path (executed steps, handler, cleanup) creates
a second browser or page. -/
theorem single_browser_single_page (fails : Event → Bool) :
    (fullTrace fails).countP isLaunch = 1 ∧ (fullTrace fails).countP isNewPage = 1 := by
  have hex1 : (executedEvents fails tryEvents).countP isLaunch = 0 := by
    have hle := countP_executedEvents_le fails isLaunch tryEvents
    have h0 : tryEvents.countP isLaunch = 0 := by decide
    omega
  have hex2 : (executedEvents fails tryEvents).countP isNewPage = 0 := by
    have hle := countP_executedEvents_le fails isNewPage tryEvents
    have h0 : tryEvents.countP isNewPage = 0 := by decide
    omega
  have hh1 : (handlerEvents fails).countP isLaunch = 0 := by
    unfold handlerEvents
    cases firstFailure fails
    · decide
    · show List.countP isLaunch [errorShotEvent] = 0
      decide
  have hh2 : (handlerEvents fails).countP isNewPage = 0 := by
    unfold handlerEvents
    cases firstFailure fails
    · decide
    · show List.countP isNewPage [errorShotEvent] = 0
      decide
  have key : ∀ p : Event → Bool,
      (fullTrace fails).countP p =
        ([Event.launchBrowser, Event.newPage].countP p) +
        ((executedEvents fails tryEvents).countP p) +
        ((handlerEvents fails).countP p) + ([Event.closeBrowser].countP p) := by
    intro p
    show (([Event.launchBrowser, Event.newPage] ++
        (executedEvents fails tryEvents ++ handlerEvents fails ++ [Event.closeBrowser])).countP p) = _
    rw [List.countP_append, List.countP_append, List.countP_append]
    omega
  constructor
  · rw [key isLaunch, hex1, hh1]
    decide
  · rw [key isNewPage, hex2, hh2]
    decide

/-- Claim C10: if the diagnostic screenshot inside the error handler itself
raises, that exception escapes the top-level catch-all: the browser is
still closed by the `finally` block, but the run terminates with an
uncaught exception and the error screenshot file is not written. -/
theorem handler_screenshot_failure_escapes (fails : Event → Bool) (e : Event)
    (h : firstFailure fails = some e) (hs : fails errorShotEvent = true) :
    (run fails).uncaught = true ∧ (run fails).browserClosed = true ∧
    errorShotPath ∉ (run fails).filesWritten ∧
    (run fails).printedError = true := by
  rw [run_of_failure fails e h, if_pos hs]
  exact ⟨rfl, rfl, errorShot_not_in_tryFiles fails, rfl⟩

/-- Witness for C10: the navigation fails and the handler screenshot also
fails. -/
theorem handler_screenshot_failure_escapes_witness :
    (run failGotoAndHandler).uncaught = true ∧
    (run failGotoAndHandler).browserClosed = true ∧
    errorShotPath ∉ (run failGotoAndHandler).filesWritten ∧
    (run failGotoAndHandler).printedError = true :=
  handler_screenshot_failure_escapes failGotoAndHandler gotoEvent (by decide) (by decide)
